import Mathlib

/-
  Shallow embedding of the ESP-MESH data transfer component
  (src/components/mesh/src/mesh_data_transfer.c and the headers
  src/components/mesh/inc/mesh_data_transfer.h, src/components/mesh/inc/mesh.h).

  Bytes are modelled as Nat values < 256, buffers as List Nat.  Machine
  integers are modelled as Nat with explicit `% 2^w` where the C code can
  overflow (the uint16_t packet size).  The ESP32 is little-endian and the
  wire structs are __attribute__((packed)), so reinterpreting a received
  buffer as mesh_data_packet_t reads byte 0 as header.type, bytes 1 (LSB)
  and 2 (MSB) as header.length, byte 3 as header.reserved, and the rest as
  the payload.
-/

namespace MeshSpec

/-- esp_err_t values used by the component (esp_err.h / esp_mesh.h). -/
inductive EspErr where
  | ESP_OK
  | ESP_FAIL
  | ESP_ERR_INVALID_ARG
  | ESP_ERR_INVALID_STATE
  | ESP_ERR_NO_MEM
  | ESP_ERR_NOT_FOUND
  | ESP_ERR_MESH_NOT_START
  deriving DecidableEq, Repr

/-- A MAC address (mesh_addr_t, 6 bytes); modelled as a byte list. -/
abbrev MeshAddr := List Nat

/-- sizeof(mesh_data_header_t): the packed header `type:u8 length:u16
reserved:u8` occupies 4 bytes (mesh_data_transfer.h:32-36). -/
def headerSize : Nat := 4

/-- The computed total packet size of the send paths
(mesh_data_transfer.c:145, 197, 249):
`uint16_t packet_size = sizeof(mesh_data_header_t) + length;`.
The sum is computed in size_t and then truncated to uint16_t, hence the
explicit `% 65536`. -/
def packet_size (length : Nat) : Nat := (headerSize + length) % 65536

/-- The four header bytes written by the send paths
(mesh_data_transfer.c:153-155): type, length LSB, length MSB, reserved=0.
`data_type` is a uint8_t parameter and `length` a uint16_t field, hence the
byte-level reductions. -/
def headerBytes (data_type length : Nat) : List Nat :=
  [data_type % 256, length % 256, length / 256 % 256, 0]

/-- The frame handed to esp_mesh_send by the send paths
(mesh_data_transfer.c:152-161): a buffer of `packet_size` bytes whose
leading bytes are the header followed by the payload (`data.size =
packet_size`).  When `packet_size` wraps below `headerSize + length`
the C code writes past the end of the malloc'd block (undefined
behaviour); the model keeps the defined part: the transmitted frame is the
first `packet_size` bytes of header ++ payload.  The C `length` parameter
is the byte count of `payload`, so it appears here as `payload.length`. -/
def encodeFrame (data_type : Nat) (payload : List Nat) : List Nat :=
  (headerBytes data_type payload.length ++ payload).take (packet_size payload.length)

/-- The length field read back from a received buffer
(mesh_data_transfer.c:60-61): `uint16_t payload_length =
packet->header.length;`, i.e. bytes 1 (LSB) and 2 (MSB) on the
little-endian target. -/
def declared_length (buf : List Nat) : Nat := buf.getD 1 0 + 256 * buf.getD 2 0

/-- The inbound validation and parsing done by mesh_receive_task
(mesh_data_transfer.c:53-76): reject when `data.size <
sizeof(mesh_data_header_t)`; reject when `payload_length +
sizeof(mesh_data_header_t) != data.size`; otherwise deliver
(packet->header.type, payload_length, packet->payload). -/
def decodeFrame (buf : List Nat) : Option (Nat × Nat × List Nat) :=
  if buf.length < headerSize then none
  else if declared_length buf + headerSize = buf.length then
    some (buf.getD 0 0, declared_length buf, buf.drop headerSize)
  else none

/-- The environment a send-path call runs in: the role/state queries
(esp_mesh_is_device_active, esp_mesh_is_root), the outcomes of the two
malloc calls, the routing-table snapshot
(esp_mesh_get_routing_table_size / esp_mesh_get_routing_table), and the
result of each esp_mesh_send call (`send_err` for the single send of
mesh_send_to_root / mesh_send_to_child, `send_err_at i` for the i-th
iteration of the broadcast loop). -/
structure MeshEnv where
  is_active : Bool
  is_root : Bool
  packet_alloc_ok : Bool
  route_alloc_ok : Bool
  route_table : List MeshAddr
  send_err : EspErr
  send_err_at : Nat → EspErr

/-- Observable outcome of one send-path call: the returned esp_err_t, the
list of esp_mesh_send calls made (destination address; `none` is the NULL
destination meaning "toward root"), and the number of malloc calls
attempted. -/
structure SendOutcome where
  result : EspErr
  sends : List (Option MeshAddr)
  allocs : Nat
  deriving DecidableEq, Repr

/-- mesh_send_to_root (mesh_data_transfer.c:132-177).  The NULL-able C
payload pointer is `Option (List Nat)`; the separate C length argument is
the byte count of that buffer, so `length == p.length` and the C check
`length == 0` is `p.length = 0`.  On the send path the code returns `err`
of esp_mesh_send when it is not ESP_OK and ESP_OK otherwise, i.e. exactly
`err`.  The packet buffer is freed on every exit path after allocation. -/
def mesh_send_to_root (env : MeshEnv) (data_type : Nat)
    (payload : Option (List Nat)) : SendOutcome :=
  match payload with
  | none => ⟨.ESP_ERR_INVALID_ARG, [], 0⟩
  | some p =>
    if p.length = 0 then ⟨.ESP_ERR_INVALID_ARG, [], 0⟩
    else if env.is_active = false then ⟨.ESP_ERR_MESH_NOT_START, [], 0⟩
    else if env.packet_alloc_ok = false then ⟨.ESP_ERR_NO_MEM, [], 1⟩
    else ⟨env.send_err, [none], 1⟩

/-- mesh_send_to_child (mesh_data_transfer.c:179-229).  Same shape as
mesh_send_to_root plus the NULL check on dest_addr and the
esp_mesh_is_root role check, which returns ESP_FAIL ("Not a root node")
before any allocation. -/
def mesh_send_to_child (env : MeshEnv) (dest_addr : Option MeshAddr)
    (data_type : Nat) (payload : Option (List Nat)) : SendOutcome :=
  match dest_addr, payload with
  | none, _ => ⟨.ESP_ERR_INVALID_ARG, [], 0⟩
  | some _, none => ⟨.ESP_ERR_INVALID_ARG, [], 0⟩
  | some dest, some p =>
    if p.length = 0 then ⟨.ESP_ERR_INVALID_ARG, [], 0⟩
    else if env.is_active = false then ⟨.ESP_ERR_MESH_NOT_START, [], 0⟩
    else if env.is_root = false then ⟨.ESP_FAIL, [], 0⟩
    else if env.packet_alloc_ok = false then ⟨.ESP_ERR_NO_MEM, [], 1⟩
    else ⟨env.send_err, [some dest], 1⟩

/-- mesh_broadcast_from_root (mesh_data_transfer.c:231-309): argument
check, active check, role check (ESP_FAIL), packet malloc, empty
routing-table early ESP_OK with no sends, routing-table malloc, then one
esp_mesh_send per table entry counting successes (a failed send is logged
and the loop continues), finally ESP_OK iff success_count > 0. -/
def mesh_broadcast_from_root (env : MeshEnv) (data_type : Nat)
    (payload : Option (List Nat)) : SendOutcome :=
  match payload with
  | none => ⟨.ESP_ERR_INVALID_ARG, [], 0⟩
  | some p =>
    if p.length = 0 then ⟨.ESP_ERR_INVALID_ARG, [], 0⟩
    else if env.is_active = false then ⟨.ESP_ERR_MESH_NOT_START, [], 0⟩
    else if env.is_root = false then ⟨.ESP_FAIL, [], 0⟩
    else if env.packet_alloc_ok = false then ⟨.ESP_ERR_NO_MEM, [], 1⟩
    else if env.route_table.length = 0 then ⟨.ESP_OK, [], 1⟩
    else if env.route_alloc_ok = false then ⟨.ESP_ERR_NO_MEM, [], 2⟩
    else
      let success_count :=
        (List.range env.route_table.length).countP
          (fun i => decide (env.send_err_at i = .ESP_OK))
      ⟨if 0 < success_count then .ESP_OK else .ESP_FAIL,
       env.route_table.map Option.some, 2⟩

/-- One wakeup of the receive loop's blocking esp_mesh_recv
(mesh_data_transfer.c:46): either a transport error (`err != ESP_OK`) or a
received buffer together with its source address. -/
inductive RecvOutcome where
  | recv_err : RecvOutcome
  | recv_ok : MeshAddr → List Nat → RecvOutcome
  deriving DecidableEq, Repr

/-- The argument tuple the registered callback is invoked with
(mesh_data_transfer.c:75-76): source address, packet->header.type,
packet->payload, payload_length. -/
structure Delivery where
  src : MeshAddr
  data_type : Nat
  payload : List Nat
  len : Nat
  deriving DecidableEq, Repr

/-- One iteration of the `while (1)` body of mesh_receive_task
(mesh_data_transfer.c:40-80).  Every path of the body either `continue`s
or falls through to the next iteration — there is no break or return
inside the loop — so an iteration is a total function whose only
observable effect is whether the callback was invoked and with what:
transport error → none (log, continue); undersized or length-inconsistent
frame → none (log, continue); valid frame with a registered callback →
the delivery; valid frame without a callback → none (log, discard). -/
def receive_iteration (cb_registered : Bool) : RecvOutcome → Option Delivery
  | .recv_err => none
  | .recv_ok src buf =>
    match decodeFrame buf with
    | none => none
    | some (ty, len, pl) =>
      if cb_registered then some ⟨src, ty, pl, len⟩ else none

/-- A receive outcome that the loop must drop: a transport receive error
or a frame rejected by the inbound validation. -/
def is_malformed : RecvOutcome → Bool
  | .recv_err => true
  | .recv_ok _ buf => (decodeFrame buf).isNone

/-- The receive loop run over a finite prefix of its input stream: the
body is executed once per outcome (the loop never exits), and the result
is the sequence of callback invocations. -/
def receive_run (cb_registered : Bool) (os : List RecvOutcome) : List Delivery :=
  os.filterMap (receive_iteration cb_registered)

/-- The component's static state (mesh_data_transfer.c:11-13):
s_receive_task_handle is modelled by the number of receive tasks alive
(0 or 1; the handle is non-NULL exactly when a task exists),
s_receive_callback by an abstract callback identifier. -/
structure XferState where
  s_initialized : Bool
  task_count : Nat
  s_receive_callback : Option Nat
  deriving DecidableEq, Repr

/-- The state before mesh_data_transfer_init is first called: statics are
zero-initialized (handle NULL, callback NULL, initialized false). -/
def xfer_state0 : XferState := ⟨false, 0, none⟩

/-- mesh_data_transfer_init (mesh_data_transfer.c:87-108): if already
initialized return ESP_ERR_INVALID_STATE unchanged; otherwise create the
receive task (`task_create_ok` is the xTaskCreate outcome; on failure
return ESP_FAIL with no task created), then set s_initialized. -/
def mesh_data_transfer_init (task_create_ok : Bool) (s : XferState) :
    EspErr × XferState :=
  if s.s_initialized = true then (.ESP_ERR_INVALID_STATE, s)
  else if task_create_ok = false then (.ESP_FAIL, s)
  else (.ESP_OK, ⟨true, s.task_count + 1, s.s_receive_callback⟩)

/-- mesh_data_transfer_deinit (mesh_data_transfer.c:110-130): if not
initialized return ESP_FAIL; otherwise delete the receive task when the
handle is non-NULL (one task removed when any exists), clear the callback
and the initialized flag. -/
def mesh_data_transfer_deinit (s : XferState) : EspErr × XferState :=
  if s.s_initialized = false then (.ESP_FAIL, s)
  else (.ESP_OK, ⟨false, s.task_count - 1, none⟩)

/-- mesh_register_receive_callback (mesh_data_transfer.c:311-320): NULL
callback is ESP_ERR_INVALID_ARG with no change; otherwise the single
callback slot is overwritten. -/
def mesh_register_receive_callback (cb : Option Nat) (s : XferState) :
    EspErr × XferState :=
  match cb with
  | none => (.ESP_ERR_INVALID_ARG, s)
  | some c => (.ESP_OK, ⟨s.s_initialized, s.task_count, some c⟩)

/-- One externally invokable lifecycle operation of the component. -/
inductive XferOp where
  | op_init : Bool → XferOp
  | op_deinit : XferOp
  | op_register_cb : Option Nat → XferOp

/-- State transition of one lifecycle operation (return value dropped). -/
def xfer_step : XferOp → XferState → XferState
  | .op_init ok, s => (mesh_data_transfer_init ok s).2
  | .op_deinit, s => (mesh_data_transfer_deinit s).2
  | .op_register_cb cb, s => (mesh_register_receive_callback cb s).2

/-- The component state after an arbitrary sequence of lifecycle calls. -/
def xfer_run (ops : List XferOp) (s : XferState) : XferState :=
  ops.foldl (fun st op => xfer_step op st) s

/-- The lifecycle invariant: a receive task exists iff the component is
initialized (in particular never more than one task). -/
def xfer_inv (s : XferState) : Prop :=
  s.task_count = if s.s_initialized then 1 else 0

/-- MESH_MAX_REGISTERED_NODES (mesh.h:16): registry capacity. -/
def MESH_MAX_REGISTERED_NODES : Nat := 20

/-- mesh_registered_node_t (mesh.h:45-52): root-side view of a known
node.  The char[16] name is modelled as a byte list. -/
structure RegisteredNode where
  node_id : Nat
  mac_addr : MeshAddr
  node_type : Nat
  name : List Nat
  is_active : Bool
  last_seen : Nat
  deriving DecidableEq, Repr

/-- Update-in-place of the first registry slot whose node_id matches the
new entry's node_id (the registry scan stops at the first match). -/
def reg_update_first (e2 : RegisteredNode) :
    List RegisteredNode → List RegisteredNode
  | [] => []
  | e :: rest =>
    if e.node_id = e2.node_id then e2 :: rest
    else e :: reg_update_first e2 rest

/-- Modelled from the spec: the body of mesh_register_node is not under
src/ — mesh.h:85-86 only declares it.  Spec section 4.2:
`register_or_update(node_id, address, node_type, name) -> ok |
capacity_exceeded`; it "overwrites address/type/name/last_seen/is_active
on the existing slot rather than creating a duplicate" for a node_id
already present; `node_id = 0` "is reserved/invalid and must be rejected
as a bad argument"; a new node_id is appended (enumeration order =
insertion order) subject to the fixed capacity, the excess being rejected
with a resource-exhaustion error.  `now` is the timestamp written to
last_seen; a freshly registered node is marked active. -/
def mesh_register_node (now : Nat) (reg : List RegisteredNode) (nid : Nat)
    (mac : MeshAddr) (ntype : Nat) (nm : List Nat) :
    EspErr × List RegisteredNode :=
  if nid = 0 then (.ESP_ERR_INVALID_ARG, reg)
  else if reg.any (fun e => e.node_id == nid) then
    (.ESP_OK, reg_update_first ⟨nid, mac, ntype, nm, true, now⟩ reg)
  else if MESH_MAX_REGISTERED_NODES ≤ reg.length then (.ESP_ERR_NO_MEM, reg)
  else (.ESP_OK, reg ++ [⟨nid, mac, ntype, nm, true, now⟩])

/-- The registered-node count over the modelled registry (mesh.h:127). -/
def mesh_get_registered_node_count (reg : List RegisteredNode) : Nat :=
  reg.length

/-- Concrete environment for witnesses: an active root with a 3-entry
routing table where exactly the first send fails. -/
def env_w : MeshEnv :=
  ⟨true, true, true, true,
   [[1, 2, 3, 4, 5, 6], [7, 8, 9, 10, 11, 12], [13, 14, 15, 16, 17, 18]],
   .ESP_OK,
   fun i => if i = 0 then .ESP_FAIL else .ESP_OK⟩

/-- Concrete environment for witnesses: an active non-root node. -/
def env_nonroot_w : MeshEnv :=
  ⟨true, false, true, true, [], .ESP_OK, fun _ => .ESP_OK⟩

/-- Concrete malformed receive outcomes for the C7 witness: a transport
error, an undersized frame, and a frame whose declared length (5) plus
the header size does not match the buffer size (5). -/
def malformed_w : List RecvOutcome :=
  [.recv_err,
   .recv_ok [1, 1, 1, 1, 1, 1] [1, 2, 3],
   .recv_ok [1, 1, 1, 1, 1, 1] [1, 5, 0, 0, 9]]

/-- A concrete well-formed receive outcome for the C7 witness. -/
def wellformed_w : List RecvOutcome :=
  [.recv_ok [2, 2, 2, 2, 2, 2] [1, 1, 0, 0, 7]]

/-- Concrete one-entry registry for the C9 witness. -/
def reg0_w : List RegisteredNode :=
  [⟨5, [1, 2, 3, 4, 5, 6], 1, [], true, 0⟩]

/-- Supporting fact (not itself a claim): on the non-wrapping range
`payload.length ≤ 65531` (so that `headerSize + length` fits uint16_t)
the encode path builds exactly header ++ payload and the inbound
validation of mesh_receive_task accepts it and returns the original
(type, length, payload). -/
theorem roundtrip_no_wrap (data_type : Nat) (payload : List Nat)
    (hty : data_type < 256) (hlen : payload.length ≤ 65531) :
    decodeFrame (encodeFrame data_type payload) =
      some (data_type, payload.length, payload) := by
  have hsize : packet_size payload.length = payload.length + 4 := by
    unfold packet_size headerSize
    omega
  have htake : encodeFrame data_type payload =
      data_type % 256 :: payload.length % 256 ::
        payload.length / 256 % 256 :: 0 :: payload := by
    unfold encodeFrame headerBytes
    rw [hsize]
    show data_type % 256 :: payload.length % 256 ::
        payload.length / 256 % 256 :: 0 :: List.take payload.length payload = _
    rw [List.take_length]
  rw [htake]
  unfold decodeFrame declared_length headerSize
  rw [if_neg (by simp only [List.length_cons]; omega)]
  rw [if_pos (by
    show payload.length % 256 + 256 * (payload.length / 256 % 256) + 4 =
      (payload.length + 1 + 1 + 1 + 1 : Nat)
    omega)]
  show some (data_type % 256,
      payload.length % 256 + 256 * (payload.length / 256 % 256), payload) = _
  rw [Nat.mod_eq_of_lt hty]
  have h2 : payload.length % 256 + 256 * (payload.length / 256 % 256) =
      payload.length := by omega
  rw [h2]

/-- Claim C1: the claim asserts decode(encode(type, payload)) round-trips
for every payload length representable in the 16-bit length field
(≤ 65535).  The code violates this: `uint16_t packet_size =
sizeof(mesh_data_header_t) + length` (mesh_data_transfer.c:145) wraps
modulo 2^16 for length ≥ 65532, so at length 65532 the transmitted frame
has size (4 + 65532) mod 65536 = 0 and the receive-side validation
rejects it — the round-trip fails.  (The underlying memcpy of 65532
bytes into a 0-byte allocation is a heap overflow.)  This theorem
evaluates the embedded code at the failing input. -/
theorem roundtrip_wraps_at_65532 :
    (encodeFrame 1 (List.replicate 65532 0)).length = 0 ∧
    decodeFrame (encodeFrame 1 (List.replicate 65532 0)) = none ∧
    decodeFrame (encodeFrame 1 (List.replicate 65532 0)) ≠
      some (1, 65532, List.replicate 65532 0) := by
  have h : encodeFrame 1 (List.replicate 65532 0) = [] := by
    unfold encodeFrame
    rw [List.length_replicate]
    rw [show packet_size 65532 = 0 from by decide]
    exact List.take_zero _
  rw [h]
  refine ⟨rfl, rfl, ?_⟩
  intro hcontra
  exact Option.noConfusion hcontra

/-- Claim C2: the inbound validation fails (frame rejected, no payload
delivered) if and only if the buffer is smaller than the 4-byte header,
or the declared length field plus the header size differs from the total
buffer size.  In particular a length field off by one in either
direction falsifies the equality and is rejected. -/
theorem decode_rejects_iff (buf : List Nat) :
    decodeFrame buf = none ↔
      buf.length < headerSize ∨
        declared_length buf + headerSize ≠ buf.length := by
  unfold decodeFrame
  by_cases h1 : buf.length < headerSize
  · simp [h1]
  · rw [if_neg h1]
    by_cases h2 : declared_length buf + headerSize = buf.length
    · rw [if_pos h2]
      simp [h1, h2]
    · rw [if_neg h2]
      simp [h1, h2]

/-- Witness for C2 at concrete buffers: a frame declaring length 5 over a
4-byte payload (off by one high) is rejected, and an accepted frame is
exactly one whose declared length matches. -/
theorem decode_rejects_iff_witness :
    decodeFrame [1, 5, 0, 0, 9, 9, 9, 9] = none ∧
    decodeFrame [1, 3, 0, 0, 9, 9, 9, 9] = none ∧
    decodeFrame [1, 2, 0] = none :=
  ⟨(decode_rejects_iff [1, 5, 0, 0, 9, 9, 9, 9]).mpr (Or.inr (by decide)),
   (decode_rejects_iff [1, 3, 0, 0, 9, 9, 9, 9]).mpr (Or.inr (by decide)),
   (decode_rejects_iff [1, 2, 0]).mpr (Or.inl (by decide))⟩

/-- Claim C5: the claim asserts the built frame is exactly header-size
plus length bytes for every 16-bit payload length, "in particular the
computed total packet size never wraps".  The code computes `uint16_t
packet_size = sizeof(mesh_data_header_t) + length`
(mesh_data_transfer.c:145): at length 65532 this wraps to 0, not
4 + 65532 = 65536; malloc then receives 0 and the subsequent memcpy of
65532 bytes overflows the allocation.  This theorem evaluates the
embedded packet-size computation at the failing input. -/
theorem packet_size_wraps_at_65532 :
    packet_size 65532 = 0 ∧
    headerSize + 65532 = 65536 ∧
    packet_size 65532 ≠ headerSize + 65532 := by
  refine ⟨by decide, by decide, by decide⟩

/-- Claim C8: encode(type=0x01, payload=[0x12,0x34,0x56,0x78]) yields
exactly 01 04 00 00 12 34 56 78 (little-endian 16-bit length field), and
decoding that 8-byte sequence returns type 0x01, length 4 and the same
payload. -/
theorem concrete_frame_roundtrip :
    encodeFrame 0x01 [0x12, 0x34, 0x56, 0x78] =
      [0x01, 0x04, 0x00, 0x00, 0x12, 0x34, 0x56, 0x78] ∧
    decodeFrame [0x01, 0x04, 0x00, 0x00, 0x12, 0x34, 0x56, 0x78] =
      some (0x01, 4, [0x12, 0x34, 0x56, 0x78]) := by
  refine ⟨by decide, by decide⟩

/-- Claim C3: on an active root with valid arguments and successful
allocations, mesh_broadcast_from_root over an empty routing table returns
ESP_OK with zero transport sends; over a non-empty routing table it makes
exactly one send per routing-table entry (a per-recipient failure does
not stop the remaining sends) and returns ESP_OK iff at least one send
succeeded, ESP_FAIL only when every send failed. -/
theorem broadcast_fanout (env : MeshEnv) (data_type : Nat) (p : List Nat)
    (hp : p ≠ []) (hact : env.is_active = true) (hroot : env.is_root = true)
    (hpa : env.packet_alloc_ok = true) (hra : env.route_alloc_ok = true) :
    (env.route_table = [] →
      mesh_broadcast_from_root env data_type (some p) = ⟨.ESP_OK, [], 1⟩) ∧
    (env.route_table ≠ [] →
      (mesh_broadcast_from_root env data_type (some p)).sends =
        env.route_table.map Option.some ∧
      ((mesh_broadcast_from_root env data_type (some p)).result = .ESP_OK ↔
        ∃ i < env.route_table.length, env.send_err_at i = .ESP_OK)) := by
  have hlen : ¬ p.length = 0 := by
    simpa [List.length_eq_zero] using hp
  constructor
  · intro hrt
    simp [mesh_broadcast_from_root, hlen, hact, hroot, hpa, hra, hrt]
  · intro hrt
    have hn : ¬ env.route_table.length = 0 := by
      simpa [List.length_eq_zero] using hrt
    constructor
    · simp [mesh_broadcast_from_root, hlen, hact, hroot, hpa, hra, hn]
    · have hres : (mesh_broadcast_from_root env data_type (some p)).result =
          (if 0 < (List.range env.route_table.length).countP
              (fun i => decide (env.send_err_at i = .ESP_OK))
            then EspErr.ESP_OK else EspErr.ESP_FAIL) := by
        simp [mesh_broadcast_from_root, hlen, hact, hroot, hpa, hra, hn]
      rw [hres]
      by_cases hc : 0 < (List.range env.route_table.length).countP
          (fun i => decide (env.send_err_at i = .ESP_OK))
      · rw [if_pos hc]
        constructor
        · intro _
          obtain ⟨i, hi, hdec⟩ := List.countP_pos_iff.mp hc
          exact ⟨i, List.mem_range.mp hi, of_decide_eq_true hdec⟩
        · intro _
          rfl
      · rw [if_neg hc]
        constructor
        · intro hcontra
          exact EspErr.noConfusion hcontra
        · intro ⟨i, hilt, heq⟩
          exact absurd (List.countP_pos_iff.mpr
            ⟨i, List.mem_range.mpr hilt, decide_eq_true heq⟩) hc

/-- Witness for C3 at the concrete environment env_w (active root, 3-entry
routing table, exactly the first send failing): all 3 entries are sent to
and the overall result is ESP_OK. -/
theorem broadcast_fanout_witness :
    (mesh_broadcast_from_root env_w 3 (some [255, 255])).sends =
      env_w.route_table.map Option.some ∧
    ((mesh_broadcast_from_root env_w 3 (some [255, 255])).result = .ESP_OK ↔
      ∃ i < env_w.route_table.length, env_w.send_err_at i = .ESP_OK) :=
  (broadcast_fanout env_w 3 [255, 255] (by decide) rfl rfl rfl rfl).2
    (by decide)

/-- Claim C4: with valid arguments on an active node that is not the
root, both mesh_send_to_child and mesh_broadcast_from_root return the
role-check failure (the ESP_FAIL produced at the "Not a root node" check,
mesh_data_transfer.c:191-194 and 243-246) with no transport send and no
allocation. -/
theorem nonroot_role_enforcement (env : MeshEnv) (dest : MeshAddr)
    (data_type : Nat) (p : List Nat) (hp : p ≠ [])
    (hact : env.is_active = true) (hroot : env.is_root = false) :
    mesh_send_to_child env (some dest) data_type (some p) =
      ⟨.ESP_FAIL, [], 0⟩ ∧
    mesh_broadcast_from_root env data_type (some p) = ⟨.ESP_FAIL, [], 0⟩ := by
  have hlen : ¬ p.length = 0 := by
    simpa [List.length_eq_zero] using hp
  constructor
  · simp [mesh_send_to_child, hlen, hact, hroot]
  · simp [mesh_broadcast_from_root, hlen, hact, hroot]

/-- Witness for C4 at the concrete non-root environment env_nonroot_w. -/
theorem nonroot_role_enforcement_witness :
    mesh_send_to_child env_nonroot_w (some [1, 2, 3, 4, 5, 6]) 2 (some [9]) =
      ⟨.ESP_FAIL, [], 0⟩ ∧
    mesh_broadcast_from_root env_nonroot_w 2 (some [9]) =
      ⟨.ESP_FAIL, [], 0⟩ :=
  nonroot_role_enforcement env_nonroot_w [1, 2, 3, 4, 5, 6] 2 [9]
    (by decide) rfl rfl

/-- Claim C6: in each of the three send entry points, a NULL payload
pointer or a zero length (and for mesh_send_to_child a NULL destination
address) is rejected with ESP_ERR_INVALID_ARG before any allocation and
with no transport call; the send paths touch no component state. -/
theorem send_arg_rejection :
    (∀ (env : MeshEnv) (dest : Option MeshAddr) (data_type : Nat)
        (pl : Option (List Nat)), pl = none ∨ pl = some [] →
      mesh_send_to_root env data_type pl = ⟨.ESP_ERR_INVALID_ARG, [], 0⟩ ∧
      mesh_send_to_child env dest data_type pl =
        ⟨.ESP_ERR_INVALID_ARG, [], 0⟩ ∧
      mesh_broadcast_from_root env data_type pl =
        ⟨.ESP_ERR_INVALID_ARG, [], 0⟩) ∧
    (∀ (env : MeshEnv) (data_type : Nat) (pl : Option (List Nat)),
      mesh_send_to_child env none data_type pl =
        ⟨.ESP_ERR_INVALID_ARG, [], 0⟩) := by
  constructor
  · intro env dest data_type pl hpl
    rcases hpl with rfl | rfl
    · cases dest <;>
        simp [mesh_send_to_root, mesh_send_to_child, mesh_broadcast_from_root]
    · cases dest <;>
        simp [mesh_send_to_root, mesh_send_to_child, mesh_broadcast_from_root]
  · intro env data_type pl
    cases pl <;> simp [mesh_send_to_child]

/-- Witness for C6: NULL payload into mesh_send_to_root, and zero-length
payload into mesh_broadcast_from_root, both rejected at the concrete
environment env_w. -/
theorem send_arg_rejection_witness :
    mesh_send_to_root env_w 1 none = ⟨.ESP_ERR_INVALID_ARG, [], 0⟩ ∧
    mesh_broadcast_from_root env_w 1 (some []) =
      ⟨.ESP_ERR_INVALID_ARG, [], 0⟩ :=
  ⟨(send_arg_rejection.1 env_w none 1 none (Or.inl rfl)).1,
   (send_arg_rejection.1 env_w none 1 (some []) (Or.inr rfl)).2.2⟩

/-- Claim C7: in every iteration of the receive loop, a transport receive
error, an undersized frame, or a frame failing the length-consistency
check is dropped without invoking the registered callback, and the loop
proceeds: a run over any sequence of malformed outcomes delivers nothing
and the outcomes after them are still processed (the loop body has no
exit path, so no sequence of malformed frames terminates the loop or
surfaces an error). -/
theorem receive_loop_drops_malformed (cb : Bool) (os rest : List RecvOutcome)
    (h : ∀ o ∈ os, is_malformed o = true) :
    (∀ o ∈ os, receive_iteration cb o = none) ∧
    receive_run cb (os ++ rest) = receive_run cb rest := by
  have hnone : ∀ o ∈ os, receive_iteration cb o = none := by
    intro o ho
    have hm := h o ho
    cases o with
    | recv_err => rfl
    | recv_ok src buf =>
      have hdec : decodeFrame buf = none := by
        simpa [is_malformed, Option.isNone_iff_eq_none] using hm
      simp [receive_iteration, hdec]
  refine ⟨hnone, ?_⟩
  unfold receive_run
  rw [List.filterMap_append]
  have hnil : os.filterMap (receive_iteration cb) = [] := by
    rw [List.filterMap_eq_nil_iff]
    exact hnone
  rw [hnil, List.nil_append]

/-- Witness for C7: with a callback registered, running the loop over the
three concrete malformed outcomes (transport error, 3-byte frame,
length-field mismatch) followed by one well-formed frame delivers only
the well-formed frame's payload. -/
theorem receive_loop_drops_malformed_witness :
    receive_run true (malformed_w ++ wellformed_w) =
      receive_run true wellformed_w ∧
    receive_run true wellformed_w = [⟨[2, 2, 2, 2, 2, 2], 1, [7], 1⟩] :=
  ⟨(receive_loop_drops_malformed true malformed_w wellformed_w
      (by decide)).2,
   by decide⟩

/-- Each lifecycle operation preserves the invariant "a receive task
exists iff the component is initialized". -/
theorem xfer_step_preserves_inv (op : XferOp) (s : XferState)
    (h : xfer_inv s) : xfer_inv (xfer_step op s) := by
  unfold xfer_inv at h ⊢
  cases op with
  | op_init ok =>
    unfold xfer_step mesh_data_transfer_init
    by_cases h1 : s.s_initialized = true
    · simpa [h1] using h
    · have h1' : s.s_initialized = false := by
        cases hb : s.s_initialized
        · rfl
        · exact absurd hb h1
      by_cases h2 : ok = false
      · simpa [h1', h2] using h
      · have h2' : ok = true := by
          cases hb : ok
          · exact absurd hb h2
          · rfl
        simp [h1', h2'] at h ⊢
        omega
  | op_deinit =>
    unfold xfer_step mesh_data_transfer_deinit
    by_cases h1 : s.s_initialized = false
    · simpa [h1] using h
    · have h1' : s.s_initialized = true := by
        cases hb : s.s_initialized
        · exact absurd hb h1
        · rfl
      simp [h1'] at h ⊢
      omega
  | op_register_cb cb =>
    cases cb with
    | none => simpa [xfer_step, mesh_register_receive_callback] using h
    | some c => simpa [xfer_step, mesh_register_receive_callback] using h

/-- The invariant holds after any sequence of lifecycle calls. -/
theorem xfer_run_preserves_inv (ops : List XferOp) (s : XferState)
    (h : xfer_inv s) : xfer_inv (xfer_run ops s) := by
  induction ops generalizing s with
  | nil => exact h
  | cons op rest ih =>
    have hstep : xfer_run (op :: rest) s = xfer_run rest (xfer_step op s) := by
      simp [xfer_run]
    rw [hstep]
    exact ih (xfer_step op s) (xfer_step_preserves_inv op s h)

/-- Claim C10: once mesh_data_transfer_init has succeeded (s_initialized
set), every further call returns ESP_ERR_INVALID_STATE and changes
nothing (in particular it creates no additional receive task); and over
any sequence of init/deinit/register-callback calls starting from the
zero-initialized statics, at most one receive task exists, and none when
the initialized flag is clear (deinitialization resets it). -/
theorem init_once_invariant :
    (∀ (ok : Bool) (s : XferState), s.s_initialized = true →
      mesh_data_transfer_init ok s = (.ESP_ERR_INVALID_STATE, s)) ∧
    (∀ ops : List XferOp,
      (xfer_run ops xfer_state0).task_count ≤ 1 ∧
      ((xfer_run ops xfer_state0).s_initialized = false →
        (xfer_run ops xfer_state0).task_count = 0)) := by
  constructor
  · intro ok s h
    unfold mesh_data_transfer_init
    rw [if_pos h]
  · intro ops
    have hinv : xfer_inv (xfer_run ops xfer_state0) :=
      xfer_run_preserves_inv ops xfer_state0 rfl
    unfold xfer_inv at hinv
    constructor
    · rw [hinv]
      split <;> omega
    · intro hni
      rw [hinv, hni]
      rfl

/-- Witness for C10: a second init call on the state reached by one
successful init returns ESP_ERR_INVALID_STATE and leaves the state (one
task, initialized) unchanged; and after the concrete call sequence
init-init-deinit-init the task count is at most 1. -/
theorem init_once_invariant_witness :
    mesh_data_transfer_init true ⟨true, 1, none⟩ =
      (.ESP_ERR_INVALID_STATE, ⟨true, 1, none⟩) ∧
    (xfer_run [.op_init true, .op_init true, .op_deinit, .op_init true]
        xfer_state0).task_count ≤ 1 :=
  ⟨init_once_invariant.1 true ⟨true, 1, none⟩ rfl,
   (init_once_invariant.2
      [.op_init true, .op_init true, .op_deinit, .op_init true]).1⟩

/-- A registry none of whose entries carries `nid` reports no match. -/
theorem reg_any_eq_false {nid : Nat} {l : List RegisteredNode}
    (h : ∀ e ∈ l, e.node_id ≠ nid) :
    l.any (fun e => e.node_id == nid) = false := by
  rw [List.any_eq_false]
  intro e he
  simpa using h e he

/-- Updating the slot for `e2.node_id` in a registry whose only entry
with that id is the final one replaces exactly that entry. -/
theorem reg_update_first_append (e1 e2 : RegisteredNode) (nid : Nat)
    (l : List RegisteredNode) (h : ∀ e ∈ l, e.node_id ≠ nid)
    (h1 : e1.node_id = nid) (h2 : e2.node_id = nid) :
    reg_update_first e2 (l ++ [e1]) = l ++ [e2] := by
  induction l with
  | nil =>
    simp only [List.nil_append, reg_update_first]
    rw [if_pos (by rw [h1, h2])]
  | cons e rest ih =>
    have he : ¬ e.node_id = e2.node_id := by
      rw [h2]
      exact h e (by simp)
    have hrest : ∀ x ∈ rest, x.node_id ≠ nid := by
      intro x hx
      exact h x (by simp [hx])
    simp only [List.cons_append, reg_update_first, if_neg he]
    exact congrArg (List.cons e) (ih hrest)

/-- Filtering a registry for `nid` when only the final entry carries it
yields exactly that entry. -/
theorem reg_filter_append (e2 : RegisteredNode) (nid : Nat)
    (l : List RegisteredNode) (h : ∀ e ∈ l, e.node_id ≠ nid)
    (h2 : e2.node_id = nid) :
    (l ++ [e2]).filter (fun e => e.node_id == nid) = [e2] := by
  rw [List.filter_append]
  have hnil : l.filter (fun e => e.node_id == nid) = [] := by
    rw [List.filter_eq_nil_iff]
    intro e he
    simpa using h e he
  rw [hnil, List.nil_append]
  simp [List.filter, h2]

/-- Claim C9 (the registry implementation is modelled from the spec, see
mesh_register_node above): registering a node_id that is new to the
registry and then registering the same node_id again with different
address/type/name succeeds both times, leaves the registry count
unchanged by the second call, and leaves exactly one entry for that
node_id, carrying the second call's metadata (address, type, name,
last_seen timestamp, active flag). -/
theorem register_node_idempotent (reg0 : List RegisteredNode) (nid : Nat)
    (mac1 mac2 : MeshAddr) (t1 t2 : Nat) (nm1 nm2 : List Nat)
    (now1 now2 : Nat) (h0 : nid ≠ 0)
    (hnew : ∀ e ∈ reg0, e.node_id ≠ nid)
    (hcap : reg0.length < MESH_MAX_REGISTERED_NODES) :
    (mesh_register_node now1 reg0 nid mac1 t1 nm1).1 = .ESP_OK ∧
    (mesh_register_node now2
        (mesh_register_node now1 reg0 nid mac1 t1 nm1).2
        nid mac2 t2 nm2).1 = .ESP_OK ∧
    mesh_get_registered_node_count
        (mesh_register_node now2
          (mesh_register_node now1 reg0 nid mac1 t1 nm1).2
          nid mac2 t2 nm2).2 =
      mesh_get_registered_node_count
        (mesh_register_node now1 reg0 nid mac1 t1 nm1).2 ∧
    (mesh_register_node now2
        (mesh_register_node now1 reg0 nid mac1 t1 nm1).2
        nid mac2 t2 nm2).2.filter (fun e => e.node_id == nid) =
      [⟨nid, mac2, t2, nm2, true, now2⟩] := by
  have hfirst : mesh_register_node now1 reg0 nid mac1 t1 nm1 =
      (.ESP_OK, reg0 ++ [⟨nid, mac1, t1, nm1, true, now1⟩]) := by
    unfold mesh_register_node
    rw [if_neg h0]
    rw [reg_any_eq_false hnew]
    rw [if_neg Bool.false_ne_true]
    rw [if_neg (Nat.not_le.mpr hcap)]
  rw [hfirst]
  have hany : (reg0 ++ [(⟨nid, mac1, t1, nm1, true, now1⟩ :
      RegisteredNode)]).any (fun e => e.node_id == nid) = true := by
    rw [List.any_append]
    simp
  have hsecond : mesh_register_node now2
      (reg0 ++ [⟨nid, mac1, t1, nm1, true, now1⟩]) nid mac2 t2 nm2 =
      (.ESP_OK, reg0 ++ [⟨nid, mac2, t2, nm2, true, now2⟩]) := by
    unfold mesh_register_node
    rw [if_neg h0]
    rw [hany]
    rw [if_pos rfl]
    rw [reg_update_first_append _ _ nid _ hnew rfl rfl]
  rw [hsecond]
  refine ⟨rfl, rfl, ?_, ?_⟩
  · simp [mesh_get_registered_node_count]
  · exact reg_filter_append _ nid reg0 hnew rfl

/-- Witness for C9 at the concrete one-entry registry reg0_w: node 7
registered twice with different metadata ends as exactly one entry with
the second metadata and the count stays at 2. -/
theorem register_node_idempotent_witness :
    (mesh_register_node 10 reg0_w 7 [1, 1, 1, 1, 1, 1] 1 [97]).1 =
      .ESP_OK ∧
    (mesh_register_node 20
        (mesh_register_node 10 reg0_w 7 [1, 1, 1, 1, 1, 1] 1 [97]).2
        7 [2, 2, 2, 2, 2, 2] 2 [98]).1 = .ESP_OK ∧
    mesh_get_registered_node_count
        (mesh_register_node 20
          (mesh_register_node 10 reg0_w 7 [1, 1, 1, 1, 1, 1] 1 [97]).2
          7 [2, 2, 2, 2, 2, 2] 2 [98]).2 =
      mesh_get_registered_node_count
        (mesh_register_node 10 reg0_w 7 [1, 1, 1, 1, 1, 1] 1 [97]).2 ∧
    (mesh_register_node 20
        (mesh_register_node 10 reg0_w 7 [1, 1, 1, 1, 1, 1] 1 [97]).2
        7 [2, 2, 2, 2, 2, 2] 2 [98]).2.filter
        (fun e => e.node_id == 7) =
      [⟨7, [2, 2, 2, 2, 2, 2], 2, [98], true, 20⟩] :=
  register_node_idempotent reg0_w 7 [1, 1, 1, 1, 1, 1] [2, 2, 2, 2, 2, 2]
    1 2 [97] [98] 10 20 (by decide) (by decide) (by decide)

end MeshSpec
